import Mathlib

/-!
Verification of the relational-expression-compiler spec against the
repository.  The pyspark backend (`ibis/backends/pyspark/__init__.py`) is
embedded from its source in namespace `PySpark`.  The flink translator
(`ibis.backends.flink.compiler.core.translate`) is exercised by the
repository only through its tests, so its data model and rendering rules
are modelled from the spec in namespace `Flink` and the claims about it
are settled against that model.
-/

namespace Flink

/-- Modelled from the spec: the nine date/time extraction kinds
(year, quarter, month, week-of-year, day-of-year, day, hour, minute,
second) handled by the scalar expression compiler. -/
inductive ExtractKind
  | year
  | quarter
  | month
  | weekOfYear
  | dayOfYear
  | day
  | hour
  | minute
  | second
deriving DecidableEq

/-- Modelled from the spec: literal scalar values appearing in operator
trees (integer and string literals cover the claims' inputs). -/
inductive Lit
  | int (n : Int)
  | str (s : String)
deriving DecidableEq

/-- Modelled from the spec: the aggregate functions the claims mention
(`count`, `sum`, `mean`, `nunique`). -/
inductive AggKind
  | count
  | sum
  | mean
  | nunique
deriving DecidableEq

/-- Modelled from the spec: scalar expression nodes (literal, column
reference, comparison, boolean combinators, `isin`, date/time extraction,
and aggregate calls with or without an argument and with or without a
`where` predicate). -/
inductive Scalar
  | lit (l : Lit)
  | col (name : String)
  | cmp (op : String) (a b : Scalar)
  | andE (a b : Scalar)
  | orE (a b : Scalar)
  | isin (x : Scalar) (lits : List Lit)
  | extract (kind : ExtractKind) (x : Scalar)
  | aggStar (k : AggKind)
  | aggCol (k : AggKind) (x : Scalar)
  | aggStarF (k : AggKind) (p : Scalar)
  | aggColF (k : AggKind) (x : Scalar) (p : Scalar)
deriving DecidableEq

/-- Modelled from the spec: relational operator nodes.  `aggregate`
carries grouping keys (optional alias, key expression) and named
aggregate expressions, covering the trees the claims quantify over. -/
inductive Rel
  | table (name : String)
  | filter (pred : Scalar) (child : Rel)
  | aggregate (keys : List (Option String × Scalar))
      (aggs : List (String × Scalar)) (child : Rel)
deriving DecidableEq

/-- Modelled from the spec: the dialect descriptor -- the feature flag for
the native filtered-aggregate `FILTER` clause and the rule table mapping
each extraction kind to a rendering rule (`none` = no rule). -/
structure Dialect where
  hasFilterClause : Bool
  extractRule : ExtractKind → Option String

/-- Modelled from the spec: compiler errors (`UnsupportedExpressionError`,
`UnsupportedOperatorError`). -/
inductive CompileError
  | unsupportedExpression (msg : String)
  | unsupportedOperator (msg : String)
deriving DecidableEq

/-- Identifier quoting: double quotes around the identifier. -/
def quoteId (s : String) : String := "\"" ++ s ++ "\""

/-- Rendering of a literal: integers as digits, strings single-quoted. -/
def renderLit : Lit → String
  | .int n => toString n
  | .str s => "'" ++ s ++ "'"

/-- SQL name of an aggregate function (`nunique` compiles to COUNT with a
DISTINCT modifier). -/
def aggName : AggKind → String
  | .count => "COUNT"
  | .sum => "SUM"
  | .mean => "AVG"
  | .nunique => "COUNT"

/-- The DISTINCT modifier `nunique` composes with its argument. -/
def distinctTag : AggKind → String
  | .nunique => "DISTINCT "
  | _ => ""

/-- Whether a sub-expression is parenthesized when it stands as an operand
of a comparison or boolean combinator (compound boolean trees are fully
parenthesized). -/
def needsParens : Scalar → Bool
  | .cmp _ _ _ => true
  | .andE _ _ => true
  | .orE _ _ => true
  | _ => false

def parenIf (b : Bool) (s : String) : String :=
  if b then "(" ++ s ++ ")" else s

/-- The text naming an extraction kind, used in error messages. -/
def extractKindName : ExtractKind → String
  | .year => "year"
  | .quarter => "quarter"
  | .month => "month"
  | .weekOfYear => "week_of_year"
  | .dayOfYear => "day_of_year"
  | .day => "day"
  | .hour => "hour"
  | .minute => "minute"
  | .second => "second"

/-- The error raised when the dialect rule table has no entry for an
extraction kind. -/
def extractErr (k : ExtractKind) : CompileError :=
  .unsupportedExpression ("no extraction rule for " ++ extractKindName k)

/-- Modelled from the spec: the scalar expression compiler.  Consults the
dialect rule table at every extraction, renders `isin []` as the
statically-false predicate `1 = 0`, and renders conditional aggregates
through native `FILTER` syntax when the dialect's feature flag is set and
through the `CASE WHEN` rewrite otherwise. -/
def renderScalar (D : Dialect) : Scalar → Except CompileError String
  | .lit l => .ok (renderLit l)
  | .col n => .ok (quoteId n)
  | .cmp op a b => do
      let sa ← renderScalar D a
      let sb ← renderScalar D b
      pure (parenIf (needsParens a) sa ++ " " ++ op ++ " " ++ parenIf (needsParens b) sb)
  | .andE a b => do
      let sa ← renderScalar D a
      let sb ← renderScalar D b
      pure (parenIf (needsParens a) sa ++ " AND " ++ parenIf (needsParens b) sb)
  | .orE a b => do
      let sa ← renderScalar D a
      let sb ← renderScalar D b
      pure (parenIf (needsParens a) sa ++ " OR " ++ parenIf (needsParens b) sb)
  | .isin x lits =>
      match lits with
      | [] => .ok "1 = 0"
      | l :: ls => do
          let sx ← renderScalar D x
          pure (sx ++ " IN (" ++ String.intercalate ", " ((l :: ls).map renderLit) ++ ")")
  | .extract k x =>
      match D.extractRule k with
      | some f => do
          let sx ← renderScalar D x
          pure (f ++ "(" ++ sx ++ ")")
      | none => .error (extractErr k)
  | .aggStar k => .ok (aggName k ++ "(*)")
  | .aggCol k x => do
      let sx ← renderScalar D x
      pure (aggName k ++ "(" ++ distinctTag k ++ sx ++ ")")
  | .aggStarF k p => do
      let sp ← renderScalar D p
      if D.hasFilterClause then
        pure (aggName k ++ "(*) FILTER (WHERE " ++ sp ++ ")")
      else
        pure (aggName k ++ "(CASE WHEN " ++ sp ++ " THEN 1 END)")
  | .aggColF k x p => do
      let sx ← renderScalar D x
      let sp ← renderScalar D p
      if D.hasFilterClause then
        pure (aggName k ++ "(" ++ distinctTag k ++ sx ++ ") FILTER (WHERE " ++ sp ++ ")")
      else
        pure (aggName k ++ "(" ++ distinctTag k ++ "CASE WHEN " ++ sp ++ " THEN " ++ sx ++ " END)")

/-- Whether a scalar expression references a column produced by
aggregation: it contains an aggregate call, or a column reference naming
one of the aggregate result columns (`aliases`). -/
def refersToAgg (aliases : List String) : Scalar → Bool
  | .lit _ => false
  | .col n => aliases.contains n
  | .cmp _ a b => refersToAgg aliases a || refersToAgg aliases b
  | .andE a b => refersToAgg aliases a || refersToAgg aliases b
  | .orE a b => refersToAgg aliases a || refersToAgg aliases b
  | .isin x _ => refersToAgg aliases x
  | .extract _ x => refersToAgg aliases x
  | .aggStar _ => true
  | .aggCol _ _ => true
  | .aggStarF _ _ => true
  | .aggColF _ _ _ => true

/-- Modelled from the spec: a compiled SELECT statement; the FROM clause
is kept as already-rendered text (a quoted base-table name or a
parenthesized derived table). -/
structure SelectStmt where
  selectList : List (String × Option String)
  fromClause : String
  whereClause : Option String
  groupBy : List String
  having : Option String
deriving DecidableEq

/-- Rendering of one select-list item (`expr` or `expr AS "alias"`). -/
def renderSelectItem (it : String × Option String) : String :=
  it.1 ++ (match it.2 with
    | some a => " AS " ++ quoteId a
    | none => "")

/-- Modelled from the spec: the SQL renderer, serializing an assembled
statement into final query text. -/
def renderStmt (s : SelectStmt) : String :=
  "SELECT " ++ String.intercalate ", " (s.selectList.map renderSelectItem)
    ++ " FROM " ++ s.fromClause
    ++ (match s.whereClause with
        | some w => " WHERE " ++ w
        | none => "")
    ++ (match s.groupBy with
        | [] => ""
        | gs => " GROUP BY " ++ String.intercalate ", " gs)
    ++ (match s.having with
        | some h => " HAVING " ++ h
        | none => "")

/-- Whether a relational node is an aggregation. -/
def isAggregate : Rel → Bool
  | .aggregate _ _ _ => true
  | _ => false

/-- The aggregate result column names a node produces. -/
def aggAliases : Rel → List String
  | .aggregate _ aggs _ => aggs.map Prod.fst
  | _ => []

/-- Conjoining a new predicate onto an optional existing clause. -/
def mergeConj : Option String → String → String
  | none, s => s
  | some w, s => w ++ " AND " ++ s

/-- Rendering of one grouping key: the key expression's rendered text
paired with its optional alias. -/
def renderKeyItem (D : Dialect) (ka : Option String × Scalar) :
    Except CompileError (String × Option String) := do
  let s ← renderScalar D ka.2
  pure (s, ka.1)

/-- Rendering of one named aggregate expression. -/
def renderAggItem (D : Dialect) (ka : String × Scalar) :
    Except CompileError (String × Option String) := do
  let s ← renderScalar D ka.2
  pure (s, some ka.1)

/-- The FROM clause and WHERE clause an aggregation builds over its
compiled child: a base relation (or a simple filtered base relation) is
kept flat, while an aggregate child is always wrapped as a parenthesized
derived table (the two grouping levels are never flattened). -/
def aggBase : Rel → SelectStmt → String × Option String
  | .table _, cs => (cs.fromClause, cs.whereClause)
  | .filter _ _, cs =>
      if cs.groupBy.isEmpty ∧ cs.having = none ∧ cs.selectList = [("*", none)] then
        (cs.fromClause, cs.whereClause)
      else
        ("(" ++ renderStmt cs ++ ")", none)
  | .aggregate _ _ _, cs => ("(" ++ renderStmt cs ++ ")", none)

/-- Modelled from the spec: the relational node compiler.  A filter over
the output of an aggregation whose predicate references an aggregate
result column lands in HAVING; a filter preceding any aggregation lands
in WHERE; grouping keys are rendered once and that identical text is used
in both the SELECT list and the GROUP BY clause. -/
def translateRel (D : Dialect) : Rel → Except CompileError SelectStmt
  | .table n => .ok ⟨[("*", none)], quoteId n, none, [], none⟩
  | .filter p c => do
      let cs ← translateRel D c
      if isAggregate c then
        if refersToAgg (aggAliases c) p then do
          let sp ← renderScalar D p
          pure { cs with having := some (mergeConj cs.having sp) }
        else do
          let sp ← renderScalar D p
          pure ⟨[("*", none)], "(" ++ renderStmt cs ++ ")", some sp, [], none⟩
      else do
        let sp ← renderScalar D p
        pure { cs with whereClause := some (mergeConj cs.whereClause sp) }
  | .aggregate keys aggs c => do
      let cs ← translateRel D c
      let keyItems ← keys.mapM (renderKeyItem D)
      let aggItems ← aggs.mapM (renderAggItem D)
      pure ⟨keyItems ++ aggItems, (aggBase c cs).1, (aggBase c cs).2,
            keyItems.map Prod.fst, none⟩

/-- Modelled from the spec: the top-level translate function, from an
operator tree and a dialect to SQL text. -/
def translate (D : Dialect) (t : Rel) : Except CompileError String :=
  (translateRel D t).map renderStmt

/-- A dialect with the native FILTER clause and a total extraction rule
table (the flink-style target the tests compile against). -/
def flinkDialect : Dialect where
  hasFilterClause := true
  extractRule := fun k =>
    some (match k with
      | .year => "YEAR"
      | .quarter => "QUARTER"
      | .month => "MONTH"
      | .weekOfYear => "WEEKOFYEAR"
      | .dayOfYear => "DAYOFYEAR"
      | .day => "DAYOFMONTH"
      | .hour => "HOUR"
      | .minute => "MINUTE"
      | .second => "SECOND")

/-- A dialect without the FILTER clause and with an empty extraction rule
table, exercising the fallback paths. -/
def bareDialect : Dialect where
  hasFilterClause := false
  extractRule := fun _ => none

/-- Modelled from the spec: the multiset of inputs a native filtered
aggregate `AGG(x) FILTER (WHERE p)` consumes over a list of rows -- the
rows where the predicate is TRUE, with NULL values of `x` dropped because
the aggregates ignore NULL inputs. -/
def filteredInputsNative {ρ : Type} (p : ρ → Option Bool) (x : ρ → Option Int)
    (rows : List ρ) : List Int :=
  (rows.filter (fun r => p r = some true)).filterMap x

/-- Modelled from the spec: the multiset of inputs the rewritten form
`AGG(CASE WHEN p THEN x END)` consumes -- every row contributes `x` when
the predicate is TRUE and NULL otherwise, and the aggregate drops the
NULLs. -/
def filteredInputsCase {ρ : Type} (p : ρ → Option Bool) (x : ρ → Option Int)
    (rows : List ρ) : List Int :=
  rows.filterMap (fun r => if p r = some true then x r else none)

/-- COUNT over the non-NULL aggregate inputs. -/
def aggCount (xs : List Int) : Nat := xs.length

/-- SUM over the non-NULL aggregate inputs. -/
def aggSum (xs : List Int) : Int := xs.foldr (· + ·) 0

/-- MEAN over the non-NULL aggregate inputs (NULL on empty input). -/
def aggMean (xs : List Int) : Option ℚ :=
  if xs.isEmpty then none else some ((aggSum xs : ℚ) / (xs.length : ℚ))

end Flink

namespace PySpark

/-- Errors the pyspark backend raises on the paths under study:
`com.IbisInputError`, `com.IbisError` and Python's `NotImplementedError`. -/
inductive IbisErr
  | ibisInputError (msg : String)
  | ibisError (msg : String)
  | notImplementedError (msg : String)
deriving DecidableEq

/-- The observable state of a `Backend` connection: `mode` is the
`_mode` attribute (`none` = never assigned), `tables` the temporary views
registered in the session, and `sessionCalls` counts interactions with
the underlying Spark session. -/
structure BackendState where
  mode : Option String
  tables : List String
  sessionCalls : Nat
deriving DecidableEq

/-- A fresh, unconnected backend. -/
def st0 : BackendState := ⟨none, [], 0⟩

/-- Python's `mode = mode or "batch"`: `None` and the falsy empty string
default to `"batch"`. -/
def defaultedMode : Option String → String
  | none => "batch"
  | some s => if s = "" then "batch" else s

/-- The message of the invalid-mode error in `do_connect`. -/
def invalidModeMsg (m : String) : String :=
  "Invalid connection mode: " ++ m ++ ", must be `streaming` or `batch`"

/-- `Backend.do_connect`: defaults the mode, raises `IbisInputError` for a
defaulted mode that is neither `batch` nor `streaming` (before `_mode` is
assigned), and otherwise stores the mode and configures the session. -/
def do_connect (st : BackendState) (mode : Option String) :
    Option IbisErr × BackendState :=
  let m := defaultedMode mode
  if m = "batch" ∨ m = "streaming" then
    (none, { st with mode := some m, sessionCalls := st.sessionCalls + 2 })
  else
    (some (.ibisInputError (invalidModeMsg m)), st)

def parquetStreamingMsg : String :=
  "Pyspark in streaming mode does not support direction registration of parquet files. Please use `read_parquet_directory` instead."

def csvStreamingMsg : String :=
  "Pyspark in streaming mode does not support direction registration of CSV files. Please use `read_csv_directory` instead."

def jsonStreamingMsg : String :=
  "Pyspark in streaming mode does not support direction registration of JSON files. Please use `read_json_directory` instead."

def deltaStreamingMsg : String :=
  "Reading a Delta Lake table in streaming mode is not supported"

def kafkaBatchReadMsg : String :=
  "Reading from Kafka in batch mode is not supported"

def kafkaBatchWriteMsg : String :=
  "Writing to Kafka in batch mode is not supported"

/-- `Backend.read_parquet`: in streaming mode raises before any session
access; otherwise reads the file and registers a temporary view under the
resolved table name. -/
def read_parquet (st : BackendState) (tableName : String) :
    Option IbisErr × BackendState :=
  if st.mode = some "streaming" then
    (some (.notImplementedError parquetStreamingMsg), st)
  else
    (none, { st with tables := st.tables ++ [tableName],
                     sessionCalls := st.sessionCalls + 1 })

/-- `Backend.read_csv`: same gating as `read_parquet`. -/
def read_csv (st : BackendState) (tableName : String) :
    Option IbisErr × BackendState :=
  if st.mode = some "streaming" then
    (some (.notImplementedError csvStreamingMsg), st)
  else
    (none, { st with tables := st.tables ++ [tableName],
                     sessionCalls := st.sessionCalls + 1 })

/-- `Backend.read_json`: same gating as `read_parquet`. -/
def read_json (st : BackendState) (tableName : String) :
    Option IbisErr × BackendState :=
  if st.mode = some "streaming" then
    (some (.notImplementedError jsonStreamingMsg), st)
  else
    (none, { st with tables := st.tables ++ [tableName],
                     sessionCalls := st.sessionCalls + 1 })

/-- `Backend.read_delta`: same gating as `read_parquet`. -/
def read_delta (st : BackendState) (tableName : String) :
    Option IbisErr × BackendState :=
  if st.mode = some "streaming" then
    (some (.notImplementedError deltaStreamingMsg), st)
  else
    (none, { st with tables := st.tables ++ [tableName],
                     sessionCalls := st.sessionCalls + 1 })

/-- `Backend.read_kafka`: in batch mode raises before touching the
session; otherwise builds the stream reader, raises `IbisError` when
`auto_parse` is set without a schema, and else registers the view. -/
def read_kafka (st : BackendState) (tableName : String) (autoParse : Bool)
    (schema : Option Unit) : Option IbisErr × BackendState :=
  if st.mode = some "batch" then
    (some (.notImplementedError kafkaBatchReadMsg), st)
  else
    let st1 := { st with sessionCalls := st.sessionCalls + 1 }
    if autoParse ∧ schema = none then
      (some (.ibisError "When auto_parse is True, a schema must be provided to parse the messages"), st1)
    else
      (none, { st1 with tables := st1.tables ++ [tableName] })

/-- `Backend.to_kafka`: in batch mode raises before touching the session;
otherwise compiles, executes and starts the streaming write. -/
def to_kafka (st : BackendState) : Option IbisErr × BackendState :=
  if st.mode = some "batch" then
    (some (.notImplementedError kafkaBatchWriteMsg), st)
  else
    (none, { st with sessionCalls := st.sessionCalls + 1 })

/-- `Backend.create_table`: rejects `temp=True` with
`NotImplementedError` first; then creates from `obj` when it is supplied
(`schema` is ignored in that case), else from `schema`, and raises
`IbisError` when both are absent. -/
def create_table (st : BackendState) (name : String) (obj : Option Unit)
    (schema : Option Unit) (temp : Option Bool) : Option IbisErr × BackendState :=
  if temp = some true then
    (some (.notImplementedError "PySpark backend does not yet support temporary tables"), st)
  else
    match obj with
    | some _ =>
        (none, { st with tables := st.tables ++ [name],
                         sessionCalls := st.sessionCalls + 1 })
    | none =>
        match schema with
        | some _ =>
            (none, { st with tables := st.tables ++ [name],
                             sessionCalls := st.sessionCalls + 1 })
        | none => (some (.ibisError "The schema or obj parameter is required"), st)

end PySpark

section ExceptLemmas

@[simp] theorem exBindOk {ε α β : Type} (a : α) (f : α → Except ε β) :
    (Except.ok a >>= f) = f a := rfl

@[simp] theorem exBindErr {ε α β : Type} (e : ε) (f : α → Except ε β) :
    ((Except.error e : Except ε α) >>= f) = Except.error e := rfl

@[simp] theorem exPureEq {ε α : Type} (a : α) : (pure a : Except ε α) = Except.ok a := rfl

@[simp] theorem exMapOk {ε α β : Type} (f : α → β) (a : α) :
    Except.map f (Except.ok a : Except ε α) = Except.ok (f a) := rfl

@[simp] theorem exMapErr {ε α β : Type} (f : α → β) (e : ε) :
    Except.map f (Except.error e : Except ε α) = Except.error e := rfl

end ExceptLemmas

namespace Flink

theorem filteredInputs_eq {ρ : Type} (p : ρ → Option Bool) (x : ρ → Option Int)
    (rows : List ρ) : filteredInputsNative p x rows = filteredInputsCase p x rows := by
  unfold filteredInputsNative filteredInputsCase
  induction rows with
  | nil => rfl
  | cons r rs ih =>
    by_cases h : p r = some true <;>
      simp [List.filter_cons, List.filterMap_cons, h, ih]

/-- C1: compilation is deterministic -- the translator is a pure function
of the operator tree and the dialect parameters, so two compilations of
the same tree under dialects with identical parameters yield identical
SQL text. -/
theorem translate_deterministic (ta tb : Rel) (Da Db : Dialect)
    (ht : ta = tb) (hf : Da.hasFilterClause = Db.hasFilterClause)
    (hr : Da.extractRule = Db.extractRule) :
    translate Da ta = translate Db tb := by
  cases Da; cases Db; cases ht
  simp_all

theorem translate_deterministic_witness :
    translate flinkDialect (.table "t") =
      translate ⟨true, flinkDialect.extractRule⟩ (.table "t") :=
  translate_deterministic _ _ _ _ rfl rfl rfl

/-- C5: `isin` over an empty literal set renders as the statically-false
predicate `1 = 0` (never an empty `IN ()` list), and over a non-empty
literal set renders as an `IN (...)` list of the literals. -/
theorem isin_rendering (D : Dialect) (x : Scalar) (sx : String) (lits : List Lit)
    (hx : renderScalar D x = .ok sx) :
    renderScalar D (.isin x []) = .ok "1 = 0" ∧
    (lits ≠ [] →
      renderScalar D (.isin x lits) =
        .ok (sx ++ " IN (" ++ String.intercalate ", " (lits.map renderLit) ++ ")")) := by
  constructor
  · rfl
  · intro h
    cases lits with
    | nil => exact absurd rfl h
    | cons l ls => simp [renderScalar, hx]

theorem isin_rendering_witness :
    renderScalar flinkDialect (.isin (.col "g") []) = .ok "1 = 0" ∧
    renderScalar flinkDialect (.isin (.col "g") [.str "A", .str "B"]) =
      .ok "\"g\" IN ('A', 'B')" := by
  have h := isin_rendering flinkDialect (.col "g") "\"g\"" [.str "A", .str "B"] rfl
  exact ⟨h.1, by simpa using h.2 (by simp)⟩

/-- C6: for every extraction kind and every dialect, compilation of the
extraction either succeeds via the dialect rule table or fails with
`UnsupportedExpressionError`, and it succeeds exactly when the rule table
has an entry for the kind. -/
theorem extract_totality (D : Dialect) (k : ExtractKind) (x : Scalar) (sx : String)
    (hx : renderScalar D x = .ok sx) :
    renderScalar D (.extract k x) =
      (match D.extractRule k with
       | some f => .ok (f ++ "(" ++ sx ++ ")")
       | none => .error (extractErr k)) ∧
    ((∃ s, renderScalar D (.extract k x) = .ok s) ↔ (D.extractRule k).isSome) := by
  cases h : D.extractRule k <;> simp [renderScalar, h, hx]

theorem extract_totality_witness :
    renderScalar flinkDialect (.extract .year (.col "i")) = .ok "YEAR(\"i\")" ∧
    renderScalar bareDialect (.extract .year (.col "i")) =
      .error (extractErr .year) := by
  have hf := extract_totality flinkDialect .year (.col "i") "\"i\"" rfl
  have hb := extract_totality bareDialect .year (.col "i") "\"i\"" rfl
  exact ⟨by simpa using hf.1, by simpa using hb.1⟩

/-- C3: for every aggregate kind, value expression and predicate, the
compiler renders the native `FILTER` form exactly when the dialect's
feature flag is set and the `CASE WHEN` rewrite otherwise, and the two
forms are semantically equivalent: over any row list the multiset of
non-NULL inputs the aggregate consumes is identical, so COUNT, SUM and
MEAN agree on the two forms. -/
theorem filtered_agg_equivalent {ρ : Type} (p : ρ → Option Bool) (x : ρ → Option Int)
    (rows : List ρ) (k : AggKind) (xe pe : Scalar) (D : Dialect) (sx sp : String)
    (hx : renderScalar D xe = .ok sx) (hp : renderScalar D pe = .ok sp) :
    renderScalar D (.aggColF k xe pe) =
      .ok (if D.hasFilterClause then
        aggName k ++ "(" ++ distinctTag k ++ sx ++ ") FILTER (WHERE " ++ sp ++ ")"
      else
        aggName k ++ "(" ++ distinctTag k ++ "CASE WHEN " ++ sp ++ " THEN " ++ sx ++ " END)") ∧
    filteredInputsNative p x rows = filteredInputsCase p x rows ∧
    aggCount (filteredInputsNative p x rows) = aggCount (filteredInputsCase p x rows) ∧
    aggSum (filteredInputsNative p x rows) = aggSum (filteredInputsCase p x rows) ∧
    aggMean (filteredInputsNative p x rows) = aggMean (filteredInputsCase p x rows) := by
  refine ⟨?_, filteredInputs_eq p x rows, ?_, ?_, ?_⟩ <;>
    try rw [filteredInputs_eq p x rows]
  cases hD : D.hasFilterClause <;> simp [renderScalar, hx, hp, hD]

theorem filtered_agg_equivalent_witness :
    renderScalar flinkDialect
        (.aggColF .nunique (.col "b") (.cmp "=" (.col "g") (.lit (.str "A")))) =
      .ok "COUNT(DISTINCT \"b\") FILTER (WHERE \"g\" = 'A')" ∧
    renderScalar bareDialect
        (.aggColF .nunique (.col "b") (.cmp "=" (.col "g") (.lit (.str "A")))) =
      .ok "COUNT(DISTINCT CASE WHEN \"g\" = 'A' THEN \"b\" END)" ∧
    filteredInputsNative (fun n : Int => some (decide (0 < n))) (fun n => some n)
        [1, -2, 3] =
      filteredInputsCase (fun n : Int => some (decide (0 < n))) (fun n => some n)
        [1, -2, 3] := by
  have hf := filtered_agg_equivalent (fun n : Int => some (decide (0 < n)))
    (fun n => some n) [1, -2, 3] .nunique (.col "b")
    (.cmp "=" (.col "g") (.lit (.str "A"))) flinkDialect "\"b\"" "\"g\" = 'A'" rfl rfl
  have hb := filtered_agg_equivalent (fun n : Int => some (decide (0 < n)))
    (fun n => some n) [1, -2, 3] .nunique (.col "b")
    (.cmp "=" (.col "g") (.lit (.str "A"))) bareDialect "\"b\"" "\"g\" = 'A'" rfl rfl
  exact ⟨by simpa using hf.1, by simpa using hb.1, hf.2.1⟩

end Flink

namespace Flink

theorem translateRel_aggregate_eq (D : Dialect) (keys : List (Option String × Scalar))
    (aggs : List (String × Scalar)) (c : Rel) (cs : SelectStmt)
    (kitems aitems : List (String × Option String))
    (h1 : translateRel D c = .ok cs)
    (h2 : keys.mapM (renderKeyItem D) = .ok kitems)
    (h3 : aggs.mapM (renderAggItem D) = .ok aitems) :
    translateRel D (.aggregate keys aggs c) =
      .ok ⟨kitems ++ aitems, (aggBase c cs).1, (aggBase c cs).2,
           kitems.map Prod.fst, none⟩ := by
  rw [translateRel, h1]
  simp only [exBindOk]
  rw [h2]
  simp only [exBindOk]
  rw [h3]
  simp only [exBindOk, exPureEq]

theorem translateRel_aggregate_inv (D : Dialect) (keys : List (Option String × Scalar))
    (aggs : List (String × Scalar)) (c : Rel) (cs : SelectStmt)
    (h : translateRel D (.aggregate keys aggs c) = .ok cs) :
    ∃ cs0 kitems aitems, translateRel D c = .ok cs0 ∧
      keys.mapM (renderKeyItem D) = .ok kitems ∧
      aggs.mapM (renderAggItem D) = .ok aitems ∧
      cs = ⟨kitems ++ aitems, (aggBase c cs0).1, (aggBase c cs0).2,
            kitems.map Prod.fst, none⟩ := by
  rw [translateRel] at h
  cases h1 : translateRel D c with
  | error e => rw [h1] at h; simp at h
  | ok cs0 =>
    rw [h1] at h
    simp only [exBindOk] at h
    cases h2 : keys.mapM (renderKeyItem D) with
    | error e => rw [h2] at h; simp at h
    | ok kitems =>
      rw [h2] at h
      simp only [exBindOk] at h
      cases h3 : aggs.mapM (renderAggItem D) with
      | error e => rw [h3] at h; simp at h
      | ok aitems =>
        rw [h3] at h
        simp only [exBindOk, exPureEq, Except.ok.injEq] at h
        exact ⟨cs0, kitems, aitems, rfl, rfl, rfl, h.symm⟩

/-- C2: a filter consuming the output of an aggregation whose predicate
references an aggregate result column lands in the HAVING clause, and the
WHERE clause is left exactly as the aggregate's own (the predicate is
never added to WHERE); a filter preceding any aggregation lands in the
WHERE clause with HAVING untouched; and concretely, `group_by('g')`
followed by `having(count() >= 1000)` compiles to
`GROUP BY "g" HAVING COUNT(*) >= 1000`. -/
theorem filter_placement :
    (∀ (D : Dialect) (keys : List (Option String × Scalar))
       (aggs : List (String × Scalar)) (c : Rel) (p : Scalar)
       (cs : SelectStmt) (sp : String),
      translateRel D (.aggregate keys aggs c) = .ok cs →
      refersToAgg (aggs.map Prod.fst) p = true →
      renderScalar D p = .ok sp →
      translateRel D (.filter p (.aggregate keys aggs c)) =
        .ok { cs with having := some sp } ∧ cs.having = none) ∧
    (∀ (D : Dialect) (c : Rel) (p : Scalar) (cs : SelectStmt) (sp : String),
      isAggregate c = false →
      translateRel D c = .ok cs →
      renderScalar D p = .ok sp →
      translateRel D (.filter p c) =
        .ok { cs with whereClause := some (mergeConj cs.whereClause sp) }) ∧
    translate flinkDialect
      (.filter (.cmp ">=" (.aggStar .count) (.lit (.int 1000)))
        (.aggregate [(none, .col "g")] [("b_sum", .aggCol .sum (.col "b"))]
          (.table "table"))) =
      .ok "SELECT \"g\", SUM(\"b\") AS \"b_sum\" FROM \"table\" GROUP BY \"g\" HAVING COUNT(*) >= 1000" := by
  refine ⟨?_, ?_, ?_⟩
  · intro D keys aggs c p cs sp hA hr hp
    obtain ⟨cs0, kitems, aitems, h1, h2, h3, hcs⟩ :=
      translateRel_aggregate_inv D keys aggs c cs hA
    have hhav : cs.having = none := by rw [hcs]
    refine ⟨?_, hhav⟩
    rw [translateRel, hA]
    simp only [exBindOk]
    have hAgg : isAggregate (.aggregate keys aggs c) = true := rfl
    have hAl : aggAliases (.aggregate keys aggs c) = aggs.map Prod.fst := rfl
    rw [hAgg, hAl] at *
    simp [hr, hp, mergeConj, hhav]
  · intro D c p cs sp hc h1 hp
    rw [translateRel, h1]
    simp [hc, hp]
  · rfl

/-- C4: an aggregation over the result of another aggregation wraps the
inner aggregate query as a parenthesized derived table in the outer
query's FROM clause, and the outer GROUP BY holds only the outer keys --
the two grouping levels are never flattened into a single GROUP BY. -/
theorem nested_aggregate_derived (D : Dialect)
    (keys1 keys2 : List (Option String × Scalar))
    (aggs1 aggs2 : List (String × Scalar)) (c : Rel) (istmt : SelectStmt)
    (kitems aitems : List (String × Option String))
    (hi : translateRel D (.aggregate keys1 aggs1 c) = .ok istmt)
    (hk : keys2.mapM (renderKeyItem D) = .ok kitems)
    (ha : aggs2.mapM (renderAggItem D) = .ok aitems) :
    translateRel D (.aggregate keys2 aggs2 (.aggregate keys1 aggs1 c)) =
      .ok ⟨kitems ++ aitems, "(" ++ renderStmt istmt ++ ")", none,
           kitems.map Prod.fst, none⟩ := by
  have h := translateRel_aggregate_eq D keys2 aggs2 _ istmt kitems aitems hi hk ha
  simpa [aggBase] using h

theorem nested_aggregate_derived_witness :
    translateRel flinkDialect
      (.aggregate [(none, .col "a")] [("mad", .aggCol .mean (.col "the_sum"))]
        (.aggregate [(none, .col "a"), (none, .col "c")]
          [("the_sum", .aggCol .sum (.col "b"))] (.table "table"))) =
      .ok ⟨[("\"a\"", none), ("AVG(\"the_sum\")", some "mad")],
           "(SELECT \"a\", \"c\", SUM(\"b\") AS \"the_sum\" FROM \"table\" GROUP BY \"a\", \"c\")",
           none, ["\"a\""], none⟩ :=
  nested_aggregate_derived flinkDialect
    [(none, .col "a"), (none, .col "c")] [(none, .col "a")]
    [("the_sum", .aggCol .sum (.col "b"))] [("mad", .aggCol .mean (.col "the_sum"))]
    (.table "table")
    ⟨[("\"a\"", none), ("\"c\"", none), ("SUM(\"b\")", some "the_sum")],
     "\"table\"", none, ["\"a\"", "\"c\""], none⟩
    [("\"a\"", none)] [("AVG(\"the_sum\")", some "mad")] rfl rfl rfl

/-- C7: for every aggregation node, the rendered GROUP BY entries are
character-for-character the rendered texts of the grouping keys exactly
as they head the SELECT list (never positional ordinals). -/
theorem groupby_key_consistency (D : Dialect) (keys : List (Option String × Scalar))
    (aggs : List (String × Scalar)) (c : Rel) (stmt : SelectStmt)
    (h : translateRel D (.aggregate keys aggs c) = .ok stmt) :
    ∃ kitems aitems, keys.mapM (renderKeyItem D) = .ok kitems ∧
      aggs.mapM (renderAggItem D) = .ok aitems ∧
      stmt.selectList = kitems ++ aitems ∧
      stmt.groupBy = kitems.map Prod.fst := by
  obtain ⟨cs0, kitems, aitems, h1, h2, h3, hcs⟩ :=
    translateRel_aggregate_inv D keys aggs c stmt h
  exact ⟨kitems, aitems, h2, h3, by rw [hcs], by rw [hcs]⟩

theorem groupby_key_consistency_witness :
    ∃ kitems aitems,
      [(some "year", Scalar.extract .year (.col "i")),
       (some "month", Scalar.extract .month (.col "i"))].mapM
          (renderKeyItem flinkDialect) = .ok kitems ∧
      [("total", Scalar.aggStar .count),
       ("b_unique", Scalar.aggCol .nunique (.col "b"))].mapM
          (renderAggItem flinkDialect) = .ok aitems ∧
      (SelectStmt.mk
        [("YEAR(\"i\")", some "year"), ("MONTH(\"i\")", some "month"),
         ("COUNT(*)", some "total"), ("COUNT(DISTINCT \"b\")", some "b_unique")]
        "\"table\"" none ["YEAR(\"i\")", "MONTH(\"i\")"] none).selectList =
        kitems ++ aitems ∧
      (SelectStmt.mk
        [("YEAR(\"i\")", some "year"), ("MONTH(\"i\")", some "month"),
         ("COUNT(*)", some "total"), ("COUNT(DISTINCT \"b\")", some "b_unique")]
        "\"table\"" none ["YEAR(\"i\")", "MONTH(\"i\")"] none).groupBy =
        kitems.map Prod.fst :=
  groupby_key_consistency flinkDialect _ _ (.table "table") _ rfl

end Flink

namespace PySpark

/-- C8 (amended): `do_connect` raises `IbisInputError` exactly when the
mode argument, after Python-falsy defaulting (`None` and the empty string
become "batch"), is neither "batch" nor "streaming"; on success the
stored mode equals the defaulted mode, and on error the state -- in
particular `_mode` -- is left untouched. -/
theorem do_connect_spec (st : BackendState) (mode : Option String) :
    if defaultedMode mode = "batch" ∨ defaultedMode mode = "streaming" then
      do_connect st mode =
        (none, { st with mode := some (defaultedMode mode),
                         sessionCalls := st.sessionCalls + 2 })
    else
      do_connect st mode =
        (some (.ibisInputError (invalidModeMsg (defaultedMode mode))), st) := by
  by_cases h : defaultedMode mode = "batch" ∨ defaultedMode mode = "streaming" <;>
    simp [do_connect, h]

/-- C8 counterexample: for the argument `mode = ""` -- which is neither
"batch" nor "streaming" and is not None -- `do_connect` raises no error
(Python's `mode or "batch"` treats the falsy empty string like None), so
the claimed "raises if and only if mode is neither" fails as stated. -/
theorem do_connect_empty_mode_counterexample :
    do_connect st0 (some "") =
      (none, { st0 with mode := some "batch", sessionCalls := 2 }) ∧
    some "" ≠ (none : Option String) ∧ "" ≠ "batch" ∧ "" ≠ "streaming" := by
  refine ⟨rfl, by simp, by decide, by decide⟩

/-- C9: the file-registration and Kafka operations are gated on the
connection mode before any session interaction: in streaming mode
`read_parquet`, `read_csv`, `read_json` and `read_delta` raise
`NotImplementedError` and leave the state (registered tables, session
interactions) exactly as it was; in batch mode `read_kafka` and
`to_kafka` raise `NotImplementedError` and leave the state exactly as it
was. -/
theorem mode_gating (st : BackendState) (n : String) (ap : Bool)
    (sch : Option Unit) :
    (st.mode = some "streaming" →
      read_parquet st n = (some (.notImplementedError parquetStreamingMsg), st) ∧
      read_csv st n = (some (.notImplementedError csvStreamingMsg), st) ∧
      read_json st n = (some (.notImplementedError jsonStreamingMsg), st) ∧
      read_delta st n = (some (.notImplementedError deltaStreamingMsg), st)) ∧
    (st.mode = some "batch" →
      read_kafka st n ap sch = (some (.notImplementedError kafkaBatchReadMsg), st) ∧
      to_kafka st = (some (.notImplementedError kafkaBatchWriteMsg), st)) := by
  constructor <;> intro h <;>
    simp [read_parquet, read_csv, read_json, read_delta, read_kafka, to_kafka, h]

/-- C10 (amended): `create_table` raises `NotImplementedError` whenever
`temp` is True, before creating anything; with `temp` not True it raises
`IbisError` when both `obj` and `schema` are None, again creating
nothing; and it creates a table exactly when at least one of `obj` or
`schema` is supplied (when both are supplied, `obj` takes precedence and
`schema` is ignored). -/
theorem create_table_validation (st : BackendState) (name : String)
    (obj schema : Option Unit) (temp : Option Bool) :
    (temp = some true →
      create_table st name obj schema temp =
        (some (.notImplementedError "PySpark backend does not yet support temporary tables"), st)) ∧
    (temp ≠ some true → obj = none → schema = none →
      create_table st name obj schema temp =
        (some (.ibisError "The schema or obj parameter is required"), st)) ∧
    (temp ≠ some true → (obj.isSome ∨ schema.isSome) →
      (create_table st name obj schema temp).1 = none ∧
      (create_table st name obj schema temp).2.tables = st.tables ++ [name]) := by
  refine ⟨fun ht => by simp [create_table, ht], ?_, ?_⟩
  · intro ht ho hs
    subst ho; subst hs
    simp [create_table, ht]
  · intro ht hos
    cases obj with
    | some o => simp [create_table, ht]
    | none =>
      cases schema with
      | some s => simp [create_table, ht]
      | none => simp at hos

/-- C10 counterexample: with both `obj` and `schema` supplied (and `temp`
not True) `create_table` still creates the table -- the code takes the
`obj` branch and silently ignores `schema` -- so "a table is created only
when exactly one of obj or schema is supplied" fails as stated. -/
theorem create_table_both_counterexample :
    (create_table st0 "t" (some ()) (some ()) none).1 = none ∧
    (create_table st0 "t" (some ()) (some ()) none).2.tables = ["t"] ∧
    (some () : Option Unit) ≠ none := by
  refine ⟨rfl, rfl, by simp⟩

end PySpark
